import Mathlib

/-!
Verification of the eigenverb reverberation-envelope core and the
sensor-pair container of the UnderSeaModelingLibrary.

The repository ships only the declarations of `envelope_model` and
`envelope_collection` (envelope_model.h, envelope_collection.h); the
numerical bodies are absent, so that part of the development is modelled
from the specification.  The `sensor_pair` part is translated directly
from sensor_pair.h / sensor_pair.cc.

Real-valued quantities are embedded as rationals; the closed-form
overlap/energy, duration and Gaussian-profile formulas, which the
specification leaves to an external analytic model, appear as explicit
parameters of the embedding.
-/

/-- Modelled from the spec: an eigenverb is one Gaussian-beam footprint
produced by ray tracing.  This core consumes its arrival-time contribution
and its per-frequency energy density; the grazing angle, spatial spread and
bounce/caustic counters are carried for the external formulas. -/
structure Eigenverb where
  time : ℚ
  energy : ℕ → ℚ
  grazing : ℚ
  spreadLength : ℚ
  spreadWidth : ℚ
  surface : ℕ
  bottom : ℕ
  caustic : ℕ

/-- Modelled from the spec: the precise closed-form overlap energy and
duration formulas, the width combination rule and the peak-scaled Gaussian
pulse profile derive from an external analytic beam-reverberation model
that the available interfaces cite but do not reproduce.  They are
parameters of the embedding: `overlapEnergy` combines the scattering
strength with the two footprints per frequency, `overlapDuration` gives the
temporal spread of the overlap, `width` combines the computed duration with
the transmitted pulse length, `pulse` is the peak-scaled pulse profile as a
function of total energy, width and offset from the center, and `window` is
the small fixed number of standard deviations populated around the
center. -/
structure PairwisePhysics where
  overlapEnergy : (ℕ → ℚ) → Eigenverb → Eigenverb → ℕ → ℚ
  overlapDuration : (ℕ → ℚ) → Eigenverb → Eigenverb → ℕ → ℚ
  width : ℚ → ℚ → ℚ
  pulse : ℚ → ℚ → ℚ → ℚ
  window : ℚ

/-- Modelled from the spec: the fixed configuration shared by the pairwise
calculator and the accumulator: frequency-axis size, travel-time axis
(sample count and step), transmitted pulse length, minimum-intensity
threshold, and the three tensor dimension counts. -/
structure EnvConfig where
  nFreq : ℕ
  nTimes : ℕ
  timeStep : ℚ
  pulseLength : ℚ
  threshold : ℚ
  nAz : ℕ
  nSrcBeams : ℕ
  nRcvBeams : ℕ

/-- Modelled from the spec: the travel-time axis is an ordered, evenly
spaced sequence built from the sample count and the fixed step. -/
def travel_time (cfg : EnvConfig) (t : ℕ) : ℚ :=
  (t : ℚ) * cfg.timeStep

/-- Modelled from the spec: a frequency is significant when its computed
overlap energy is strictly above the configured threshold; energies at or
below the threshold are treated as having zero contribution. -/
def significant (cfg : EnvConfig) (phys : PairwisePhysics) (scatter : ℕ → ℚ)
    (src_verb rcv_verb : Eigenverb) (f : ℕ) : Bool :=
  decide (cfg.threshold < phys.overlapEnergy scatter src_verb rcv_verb f)

/-- Modelled from the spec: `envelope_model::compute_intensity` returns
false, meaning no valid contribution, exactly when every frequency of the
axis is at or below the threshold; otherwise it proceeds with the
significant frequencies. -/
def compute_intensity (cfg : EnvConfig) (phys : PairwisePhysics)
    (scatter : ℕ → ℚ) (src_verb rcv_verb : Eigenverb) : Bool :=
  (List.range cfg.nFreq).any fun f =>
    significant cfg phys scatter src_verb rcv_verb f

/-- Modelled from the spec: `envelope_model::compute_time_series`
synthesizes, for each significant frequency, a Gaussian-shaped pulse
centered at the sum of the two eigenverbs' arrival times, with width
combining the computed duration and the pulse length; only time bins within
the fixed window of standard deviations of the center are populated, and
rows of non-significant frequencies are zero. -/
def compute_time_series (cfg : EnvConfig) (phys : PairwisePhysics)
    (scatter : ℕ → ℚ) (src_verb rcv_verb : Eigenverb) (f t : ℕ) : ℚ :=
  if significant cfg phys scatter src_verb rcv_verb f then
    if |travel_time cfg t - (src_verb.time + rcv_verb.time)| ≤
        phys.window * phys.width cfg.pulseLength
          (phys.overlapDuration scatter src_verb rcv_verb f) then
      phys.pulse (phys.overlapEnergy scatter src_verb rcv_verb f)
        (phys.width cfg.pulseLength
          (phys.overlapDuration scatter src_verb rcv_verb f))
        (travel_time cfg t - (src_verb.time + rcv_verb.time))
    else 0
  else 0

/-- The envelope tensor owned by the accumulator, indexed by azimuth,
source beam, receiver beam, frequency row and time column. -/
abbrev Tensor := ℕ → ℕ → ℕ → ℕ → ℕ → ℚ

/-- The zero-initialized tensor produced by the accumulator's
constructor. -/
def zeroTensor : Tensor := fun _ _ _ _ _ => 0

/-- A beam-gain matrix with explicit dimensions: one row per transmit
frequency, one column per beam number. -/
structure BeamMat where
  rows : ℕ
  cols : ℕ
  entry : ℕ → ℕ → ℚ

/-- Modelled from the spec: the programming contract of
`envelope_collection::add_contribution`: the azimuth index is in range, the
two beam-gain matrices are shaped one row per configured frequency and one
column per configured beam, and the scattering vector has the length of the
frequency axis. -/
def validArgs (cfg : EnvConfig) (azimuth : ℕ) (scatter : List ℚ)
    (src_beam rcv_beam : BeamMat) : Bool :=
  decide (azimuth < cfg.nAz) && decide (scatter.length = cfg.nFreq) &&
  decide (src_beam.rows = cfg.nFreq) && decide (src_beam.cols = cfg.nSrcBeams) &&
  decide (rcv_beam.rows = cfg.nFreq) && decide (rcv_beam.cols = cfg.nRcvBeams)

/-- Modelled from the spec: element-wise frequency-domain weighting of the
scattering vector by the beam-gain columns of one (source beam, receiver
beam) combination. -/
def weighted_scatter (scatter : List ℚ) (src_beam rcv_beam : BeamMat)
    (sb rb : ℕ) : ℕ → ℚ :=
  fun f => scatter.getD f 0 * src_beam.entry f sb * rcv_beam.entry f rb

/-- Modelled from the spec: the successful body of
`envelope_collection::add_contribution`: for every (source beam, receiver
beam) pair it invokes the pairwise calculator on the weighted scattering
vector and, on success, adds the calculator's matrix element-wise into the
tensor cell at that azimuth and beam pair; on calculator failure the cell
is left unmodified. -/
def applyContribution (cfg : EnvConfig) (phys : PairwisePhysics) (T : Tensor)
    (azimuth : ℕ) (scatter : List ℚ) (src_beam rcv_beam : BeamMat)
    (src_verb rcv_verb : Eigenverb) : Tensor :=
  fun a sb rb f t =>
    if a = azimuth ∧ sb < cfg.nSrcBeams ∧ rb < cfg.nRcvBeams ∧
        f < cfg.nFreq ∧ t < cfg.nTimes then
      if compute_intensity cfg phys (weighted_scatter scatter src_beam rcv_beam sb rb)
          src_verb rcv_verb then
        T a sb rb f t +
          compute_time_series cfg phys (weighted_scatter scatter src_beam rcv_beam sb rb)
            src_verb rcv_verb f t
      else T a sb rb f t
    else T a sb rb f t

/-- Modelled from the spec: `envelope_collection::add_contribution` checks
the caller's contract and fails fast, without touching the tensor, when it
is violated; otherwise it performs the beam-pair accumulation loop. -/
def add_contribution (cfg : EnvConfig) (phys : PairwisePhysics) (T : Tensor)
    (azimuth : ℕ) (scatter : List ℚ) (src_beam rcv_beam : BeamMat)
    (src_verb rcv_verb : Eigenverb) : Option Tensor :=
  if validArgs cfg azimuth scatter src_beam rcv_beam then
    some (applyContribution cfg phys T azimuth scatter src_beam rcv_beam
      src_verb rcv_verb)
  else none

/-- States of the accumulator reachable by a sequence of successful
`add_contribution` calls from the zero-initialized tensor. -/
inductive Reachable (cfg : EnvConfig) (phys : PairwisePhysics) : Tensor → Prop where
  | zero : Reachable cfg phys zeroTensor
  | step : ∀ T azimuth scatter src_beam rcv_beam src_verb rcv_verb T2,
      Reachable cfg phys T →
      add_contribution cfg phys T azimuth scatter src_beam rcv_beam
        src_verb rcv_verb = some T2 →
      Reachable cfg phys T2

/-- Identity of a sensor object reached through a shared pointer; two
references are equal exactly when they designate the same object.
Translated from sensor_model::reference in sensor_pair.h. -/
structure sensor_model where
  ident : ℕ
deriving DecidableEq

/-- State of one sensor_pair instance, translated from the data members of
sensor_pair.h: the immutable source and receiver references, the eigenray
list, the source and receiver eigenverb collections and the envelope
collection, each held through a possibly null shared pointer modelled as an
optional reference identity. -/
structure sensor_pair where
  source : sensor_model
  receiver : sensor_model
  eigenrays : Option ℕ
  src_eigenverbs : Option ℕ
  rcv_eigenverbs : Option ℕ
  envelopes : Option ℕ
deriving DecidableEq

/-- Translated from sensor_pair.h: `multistatic()` returns
`_source != _receiver`; the method is const, so the state component of the
call is returned unchanged. -/
def multistatic (p : sensor_pair) : Bool × sensor_pair :=
  (decide (p.source ≠ p.receiver), p)

/-- Translated from sensor_pair.cc: `sensor_complement` returns NULL for a
NULL argument, the stored receiver when the argument equals the stored
source, and the stored source otherwise. -/
def sensor_complement (p : sensor_pair) (sensor : Option sensor_model) :
    Option sensor_model :=
  match sensor with
  | none => none
  | some q => if q = p.source then some p.receiver else some p.source

/-- Translated from sensor_pair.cc: `update_eigenverbs` tests its argument
against NULL and, in the non-NULL branch, only emits debug output; the
updates of the source and receiver eigenverb collections are commented out
(marked TODO), so the state is returned unchanged on every path. -/
def update_eigenverbs (p : sensor_pair) (sensor : Option sensor_model) :
    sensor_pair :=
  match sensor with
  | none => p
  | some _ => p

/-- A successful `add_contribution` call returns the beam-pair accumulation
of its input tensor. -/
theorem add_contribution_some_eq (cfg : EnvConfig) (phys : PairwisePhysics)
    (T : Tensor) (azimuth : ℕ) (scatter : List ℚ) (src_beam rcv_beam : BeamMat)
    (src_verb rcv_verb : Eigenverb) (T2 : Tensor)
    (h : add_contribution cfg phys T azimuth scatter src_beam rcv_beam
      src_verb rcv_verb = some T2) :
    T2 = applyContribution cfg phys T azimuth scatter src_beam rcv_beam
      src_verb rcv_verb := by
  unfold add_contribution at h
  by_cases hv : validArgs cfg azimuth scatter src_beam rcv_beam = true
  · rw [if_pos hv] at h
    exact (Option.some.inj h).symm
  · rw [if_neg hv] at h
    exact absurd h (by simp)

/-- The calculator reports no valid contribution exactly when every
frequency of the axis has overlap energy at or below the threshold. -/
theorem compute_intensity_eq_false_iff (cfg : EnvConfig)
    (phys : PairwisePhysics) (scatter : ℕ → ℚ) (src_verb rcv_verb : Eigenverb) :
    compute_intensity cfg phys scatter src_verb rcv_verb = false ↔
      ∀ f, f < cfg.nFreq →
        phys.overlapEnergy scatter src_verb rcv_verb f ≤ cfg.threshold := by
  unfold compute_intensity significant
  rw [List.any_eq_false]
  constructor
  · intro h f hf
    have hfm := h f (List.mem_range.mpr hf)
    simpa [not_lt] using hfm
  · intro h f hf
    have hfm := h f (List.mem_range.mp hf)
    simpa [not_lt] using hfm

/-- Each entry written by the accumulation loop is the previous entry plus
a contribution term that does not depend on the previous tensor. -/
theorem applyContribution_delta (cfg : EnvConfig) (phys : PairwisePhysics)
    (T : Tensor) (azimuth : ℕ) (scatter : List ℚ) (src_beam rcv_beam : BeamMat)
    (src_verb rcv_verb : Eigenverb) (a sb rb f t : ℕ) :
    applyContribution cfg phys T azimuth scatter src_beam rcv_beam
        src_verb rcv_verb a sb rb f t =
      T a sb rb f t +
        applyContribution cfg phys zeroTensor azimuth scatter src_beam rcv_beam
          src_verb rcv_verb a sb rb f t := by
  unfold applyContribution zeroTensor
  by_cases hc : a = azimuth ∧ sb < cfg.nSrcBeams ∧ rb < cfg.nRcvBeams ∧
      f < cfg.nFreq ∧ t < cfg.nTimes
  · rw [if_pos hc, if_pos hc]
    by_cases hs : compute_intensity cfg phys
        (weighted_scatter scatter src_beam rcv_beam sb rb) src_verb rcv_verb = true
    · rw [if_pos hs, if_pos hs]
      ring
    · rw [if_neg hs, if_neg hs]
      ring
  · rw [if_neg hc, if_neg hc]
    ring

/-- When the beam-pair calculator fails, the accumulation loop leaves the
corresponding cell untouched. -/
theorem applyContribution_cell_of_flag_false (cfg : EnvConfig)
    (phys : PairwisePhysics) (T : Tensor) (azimuth : ℕ) (scatter : List ℚ)
    (src_beam rcv_beam : BeamMat) (src_verb rcv_verb : Eigenverb) (sb rb f t : ℕ)
    (hflag : compute_intensity cfg phys
      (weighted_scatter scatter src_beam rcv_beam sb rb) src_verb rcv_verb = false) :
    applyContribution cfg phys T azimuth scatter src_beam rcv_beam
        src_verb rcv_verb azimuth sb rb f t = T azimuth sb rb f t := by
  unfold applyContribution
  by_cases hc : azimuth = azimuth ∧ sb < cfg.nSrcBeams ∧ rb < cfg.nRcvBeams ∧
      f < cfg.nFreq ∧ t < cfg.nTimes
  · rw [if_pos hc, if_neg (by simp [hflag])]
  · rw [if_neg hc]

/-- Every value produced by the Gaussian time-series synthesis is
non-negative, given a non-negative threshold and a pulse profile that is
non-negative on positive energies. -/
theorem compute_time_series_nonneg (cfg : EnvConfig) (phys : PairwisePhysics)
    (hthr : 0 ≤ cfg.threshold)
    (hpulse : ∀ e w d, 0 < e → 0 ≤ phys.pulse e w d)
    (scatter : ℕ → ℚ) (src_verb rcv_verb : Eigenverb) (f t : ℕ) :
    0 ≤ compute_time_series cfg phys scatter src_verb rcv_verb f t := by
  unfold compute_time_series
  by_cases hs : significant cfg phys scatter src_verb rcv_verb f = true
  · rw [if_pos hs]
    have he : cfg.threshold < phys.overlapEnergy scatter src_verb rcv_verb f := by
      unfold significant at hs
      exact of_decide_eq_true hs
    by_cases hw : |travel_time cfg t - (src_verb.time + rcv_verb.time)| ≤
        phys.window * phys.width cfg.pulseLength
          (phys.overlapDuration scatter src_verb rcv_verb f)
    · simp only [if_pos hw]
      exact hpulse _ _ _ (lt_of_le_of_lt hthr he)
    · simp only [if_neg hw]
      exact le_refl 0
  · rw [if_neg hs]

/-- An entry written by the accumulation loop stays non-negative when the
previous entry was, under the non-negativity assumptions on the threshold
and the pulse profile. -/
theorem applyContribution_entry_nonneg (cfg : EnvConfig) (phys : PairwisePhysics)
    (hthr : 0 ≤ cfg.threshold)
    (hpulse : ∀ e w d, 0 < e → 0 ≤ phys.pulse e w d)
    (T : Tensor) (azimuth : ℕ) (scatter : List ℚ) (src_beam rcv_beam : BeamMat)
    (src_verb rcv_verb : Eigenverb) (a sb rb f t : ℕ)
    (hT : 0 ≤ T a sb rb f t) :
    0 ≤ applyContribution cfg phys T azimuth scatter src_beam rcv_beam
      src_verb rcv_verb a sb rb f t := by
  unfold applyContribution
  by_cases hc : a = azimuth ∧ sb < cfg.nSrcBeams ∧ rb < cfg.nRcvBeams ∧
      f < cfg.nFreq ∧ t < cfg.nTimes
  · rw [if_pos hc]
    by_cases hflag : compute_intensity cfg phys
        (weighted_scatter scatter src_beam rcv_beam sb rb) src_verb rcv_verb = true
    · rw [if_pos hflag]
      exact add_nonneg hT (compute_time_series_nonneg cfg phys hthr hpulse _ _ _ f t)
    · rw [if_neg hflag]
      exact hT
  · rw [if_neg hc]
    exact hT

/-- Concrete physics fixture used to exercise the embedding: the overlap
energy is the weighted scattering strength itself, durations and widths are
one, the pulse profile returns the total energy, and five standard
deviations are populated. -/
def physEx : PairwisePhysics where
  overlapEnergy := fun scatter _ _ f => scatter f
  overlapDuration := fun _ _ _ _ => 1
  width := fun _ _ => 1
  pulse := fun e _ _ => e
  window := 5

/-- Concrete configuration fixture: one frequency, two time samples at a
one-second step, zero threshold, and a single azimuth and beam pair. -/
def cfgEx : EnvConfig where
  nFreq := 1
  nTimes := 2
  timeStep := 1
  pulseLength := 1
  threshold := 0
  nAz := 1
  nSrcBeams := 1
  nRcvBeams := 1

/-- Concrete one-frequency, one-beam gain matrix of all ones. -/
def beamEx : BeamMat where
  rows := 1
  cols := 1
  entry := fun _ _ => 1

/-- Concrete eigenverb fixture with unit energy density. -/
def verbEx : Eigenverb where
  time := 0
  energy := fun _ => 1
  grazing := 0
  spreadLength := 1
  spreadWidth := 1
  surface := 0
  bottom := 0
  caustic := 0

/-- Eigenverb whose doubled arrival time, 4 s, lies just beyond the 0..1 s
travel-time axis of the fixture configuration but within the populated
window. -/
def verbLate : Eigenverb :=
  { verbEx with time := 2 }

/-- Eigenverb whose doubled arrival time, 100 s, lies far beyond the
populated window of every bin of the fixture travel-time axis. -/
def verbFar : Eigenverb :=
  { verbEx with time := 50 }

/-- Claim C1: for every scattering vector and every pair of eigenverbs the
pairwise calculator's compute_intensity returns false exactly when the
computed overlap energy is at or below the threshold at every frequency,
and when add_contribution receives such a false result for a given (source
beam, receiver beam) pair, the tensor cell at that azimuth and beam pair is
left entirely unchanged by that beam-pair iteration. -/
theorem compute_intensity_false_no_merge (cfg : EnvConfig)
    (phys : PairwisePhysics) (T : Tensor) (azimuth : ℕ) (scatter : List ℚ)
    (src_beam rcv_beam : BeamMat) (src_verb rcv_verb : Eigenverb)
    (T2 : Tensor) (sb rb : ℕ)
    (h : add_contribution cfg phys T azimuth scatter src_beam rcv_beam
      src_verb rcv_verb = some T2) :
    (compute_intensity cfg phys (weighted_scatter scatter src_beam rcv_beam sb rb)
        src_verb rcv_verb = false ↔
      ∀ f, f < cfg.nFreq →
        phys.overlapEnergy (weighted_scatter scatter src_beam rcv_beam sb rb)
          src_verb rcv_verb f ≤ cfg.threshold)
    ∧ (compute_intensity cfg phys (weighted_scatter scatter src_beam rcv_beam sb rb)
        src_verb rcv_verb = false →
      ∀ f t, T2 azimuth sb rb f t = T azimuth sb rb f t) := by
  constructor
  · exact compute_intensity_eq_false_iff cfg phys _ src_verb rcv_verb
  · intro hflag f t
    rw [add_contribution_some_eq cfg phys T azimuth scatter src_beam rcv_beam
      src_verb rcv_verb T2 h]
    exact applyContribution_cell_of_flag_false cfg phys T azimuth scatter
      src_beam rcv_beam src_verb rcv_verb sb rb f t hflag

/-- Witness for claim C1 at a concrete sub-threshold input: the zero
scattering vector yields energy at threshold, the iff gives the energy
bound, and the cell of the zero tensor is unchanged by the call. -/
theorem compute_intensity_false_no_merge_witness :
    physEx.overlapEnergy (weighted_scatter [0] beamEx beamEx 0 0) verbEx verbEx 0
      ≤ cfgEx.threshold
    ∧ applyContribution cfgEx physEx zeroTensor 0 [0] beamEx beamEx verbEx verbEx
        0 0 0 0 0 = zeroTensor 0 0 0 0 0 :=
  ⟨(compute_intensity_false_no_merge cfgEx physEx zeroTensor 0 [0] beamEx beamEx
      verbEx verbEx _ 0 0 rfl).1.mp
        (by simp [compute_intensity, significant, weighted_scatter, physEx,
          cfgEx, beamEx, List.range_succ]) 0 (by decide),
   (compute_intensity_false_no_merge cfgEx physEx zeroTensor 0 [0] beamEx beamEx
      verbEx verbEx _ 0 0 rfl).2
        (by simp [compute_intensity, significant, weighted_scatter, physEx,
          cfgEx, beamEx, List.range_succ]) 0 0⟩

/-- Claim C2: starting from the zero-initialized accumulator, every entry
of every tensor reachable by add_contribution calls is non-negative, and
the pairwise calculator's synthesis itself never produces a negative
intensity value, given the non-negative threshold and a pulse profile that
is non-negative on positive energies (the Gaussian property of the external
formula). -/
theorem envelope_intensity_nonneg (cfg : EnvConfig) (phys : PairwisePhysics)
    (hthr : 0 ≤ cfg.threshold)
    (hpulse : ∀ e w d, 0 < e → 0 ≤ phys.pulse e w d) :
    (∀ scatter src_verb rcv_verb f t,
      0 ≤ compute_time_series cfg phys scatter src_verb rcv_verb f t)
    ∧ ∀ T, Reachable cfg phys T → ∀ a sb rb f t, 0 ≤ T a sb rb f t := by
  refine ⟨fun scatter sv rv f t =>
    compute_time_series_nonneg cfg phys hthr hpulse scatter sv rv f t, ?_⟩
  intro T hT
  induction hT with
  | zero =>
    intro a sb rb f t
    exact le_refl 0
  | step T az sc sg rg sv rv T2 hR hadd ih =>
    intro a sb rb f t
    rw [add_contribution_some_eq _ _ _ _ _ _ _ _ _ _ hadd]
    exact applyContribution_entry_nonneg cfg phys hthr hpulse T az sc sg rg
      sv rv a sb rb f t (ih a sb rb f t)

/-- Witness for claim C2: non-negativity evaluated on the tensor reached by
one successful concrete add_contribution call. -/
theorem envelope_intensity_nonneg_witness :
    0 ≤ applyContribution cfgEx physEx zeroTensor 0 [1] beamEx beamEx
      verbEx verbEx 0 0 0 0 0 :=
  (envelope_intensity_nonneg cfgEx physEx (by decide)
      (fun e w d h => le_of_lt h)).2 _
    (Reachable.step zeroTensor 0 [1] beamEx beamEx verbEx verbEx _
      Reachable.zero rfl) 0 0 0 0 0

/-- Claim C3: invoking add_contribution twice with the same azimuth, beam
gains and inputs on the freshly zero-initialized accumulator yields a
tensor whose every entry equals twice the corresponding entry after a
single invocation; accumulation sums rather than overwrites.  In the
rational model the equality is exact. -/
theorem add_contribution_additive (cfg : EnvConfig) (phys : PairwisePhysics)
    (azimuth : ℕ) (scatter : List ℚ) (src_beam rcv_beam : BeamMat)
    (src_verb rcv_verb : Eigenverb) (T1 T2 : Tensor)
    (h1 : add_contribution cfg phys zeroTensor azimuth scatter src_beam rcv_beam
      src_verb rcv_verb = some T1)
    (h2 : add_contribution cfg phys T1 azimuth scatter src_beam rcv_beam
      src_verb rcv_verb = some T2) :
    ∀ a sb rb f t, T2 a sb rb f t = 2 * T1 a sb rb f t := by
  intro a sb rb f t
  have e1 := add_contribution_some_eq _ _ _ _ _ _ _ _ _ _ h1
  have e2 := add_contribution_some_eq _ _ _ _ _ _ _ _ _ _ h2
  have hd := applyContribution_delta cfg phys T1 azimuth scatter src_beam
    rcv_beam src_verb rcv_verb a sb rb f t
  rw [e2, hd, ← e1, e1]
  have hz := applyContribution_delta cfg phys zeroTensor azimuth scatter
    src_beam rcv_beam src_verb rcv_verb a sb rb f t
  rw [hz]
  unfold zeroTensor
  ring

/-- Witness for claim C3: the doubling evaluated at the single cell of the
concrete fixture after two successful calls. -/
theorem add_contribution_additive_witness :
    applyContribution cfgEx physEx
        (applyContribution cfgEx physEx zeroTensor 0 [1] beamEx beamEx
          verbEx verbEx) 0 [1] beamEx beamEx verbEx verbEx 0 0 0 0 0
      = 2 * applyContribution cfgEx physEx zeroTensor 0 [1] beamEx beamEx
          verbEx verbEx 0 0 0 0 0 :=
  add_contribution_additive cfgEx physEx 0 [1] beamEx beamEx verbEx verbEx
    _ _ rfl rfl 0 0 0 0 0

/-- Claim C4: a frequency whose overlap energy is exactly the threshold is
treated as not significant, a frequency strictly above the threshold is
significant, non-significant frequencies contribute a zero row, and the
call as a whole reports failure exactly when every frequency is at or below
the threshold. -/
theorem threshold_boundary_exact (cfg : EnvConfig) (phys : PairwisePhysics)
    (scatter : ℕ → ℚ) (src_verb rcv_verb : Eigenverb) :
    (∀ f, phys.overlapEnergy scatter src_verb rcv_verb f = cfg.threshold →
      significant cfg phys scatter src_verb rcv_verb f = false)
    ∧ (∀ f, cfg.threshold < phys.overlapEnergy scatter src_verb rcv_verb f →
      significant cfg phys scatter src_verb rcv_verb f = true)
    ∧ (∀ f t, significant cfg phys scatter src_verb rcv_verb f = false →
      compute_time_series cfg phys scatter src_verb rcv_verb f t = 0)
    ∧ (compute_intensity cfg phys scatter src_verb rcv_verb = false ↔
      ∀ f, f < cfg.nFreq →
        phys.overlapEnergy scatter src_verb rcv_verb f ≤ cfg.threshold) := by
  refine ⟨?_, ?_, ?_, compute_intensity_eq_false_iff cfg phys scatter src_verb rcv_verb⟩
  · intro f hf
    unfold significant
    rw [hf]
    exact decide_eq_false (lt_irrefl cfg.threshold)
  · intro f hf
    unfold significant
    exact decide_eq_true hf
  · intro f t hs
    unfold compute_time_series
    rw [if_neg (by simp [hs])]

/-- Witness for claim C4: with the zero scattering vector the single
frequency sits exactly at the threshold and is rejected, while unit
scattering strength is strictly above and accepted. -/
theorem threshold_boundary_exact_witness :
    significant cfgEx physEx (fun _ => 0) verbEx verbEx 0 = false
    ∧ significant cfgEx physEx (fun _ => 1) verbEx verbEx 0 = true :=
  ⟨(threshold_boundary_exact cfgEx physEx (fun _ => 0) verbEx verbEx).1 0 (by decide),
   (threshold_boundary_exact cfgEx physEx (fun _ => 1) verbEx verbEx).2.1 0 (by decide)⟩

/-- Claim C5, counterexample: a concrete contribution whose Gaussian pulse
center, 4 s, lies strictly beyond the 0..1 s travel-time axis yet within
the populated window still deposits a positive value in the last time bin,
so a center outside the axis range does not by itself make the stored
contribution zero. -/
theorem out_of_range_center_counterexample :
    travel_time cfgEx (cfgEx.nTimes - 1) < verbLate.time + verbLate.time
    ∧ add_contribution cfgEx physEx zeroTensor 0 [1] beamEx beamEx verbLate verbLate
        = some (applyContribution cfgEx physEx zeroTensor 0 [1] beamEx beamEx
            verbLate verbLate)
    ∧ compute_intensity cfgEx physEx (weighted_scatter [1] beamEx beamEx 0 0)
        verbLate verbLate = true
    ∧ applyContribution cfgEx physEx zeroTensor 0 [1] beamEx beamEx verbLate
        verbLate 0 0 0 0 1 = 1 := by
  refine ⟨?_, rfl, ?_, ?_⟩
  · norm_num [travel_time, cfgEx, verbLate, verbEx]
  · simp [compute_intensity, significant, weighted_scatter, physEx, cfgEx,
      beamEx, List.range_succ]
  · norm_num [applyContribution, compute_intensity, compute_time_series,
      significant, weighted_scatter, travel_time, physEx, cfgEx, beamEx,
      verbLate, verbEx, zeroTensor, List.range_succ]

/-- Claim C5 (amended): a contribution whose Gaussian pulse center lies
further than the populated window (the fixed number of standard deviations
times the combined width, at every frequency and beam pair) from every
sample of the travel-time axis adds zero energy to the stored tensor — no
exception, no wraparound — while compute_intensity still returns true
whenever some frequency's energy is above threshold. -/
theorem out_of_range_silent_drop (cfg : EnvConfig) (phys : PairwisePhysics)
    (T : Tensor) (azimuth : ℕ) (scatter : List ℚ) (src_beam rcv_beam : BeamMat)
    (src_verb rcv_verb : Eigenverb) (T2 : Tensor)
    (h : add_contribution cfg phys T azimuth scatter src_beam rcv_beam
      src_verb rcv_verb = some T2)
    (hfar : ∀ sb rb f t, t < cfg.nTimes →
      phys.window * phys.width cfg.pulseLength
          (phys.overlapDuration (weighted_scatter scatter src_beam rcv_beam sb rb)
            src_verb rcv_verb f)
        < |travel_time cfg t - (src_verb.time + rcv_verb.time)|) :
    (∀ a sb rb f t, T2 a sb rb f t = T a sb rb f t)
    ∧ ∀ sb rb f, f < cfg.nFreq →
        cfg.threshold < phys.overlapEnergy
          (weighted_scatter scatter src_beam rcv_beam sb rb) src_verb rcv_verb f →
        compute_intensity cfg phys (weighted_scatter scatter src_beam rcv_beam sb rb)
          src_verb rcv_verb = true := by
  constructor
  · intro a sb rb f t
    rw [add_contribution_some_eq _ _ _ _ _ _ _ _ _ _ h]
    unfold applyContribution
    by_cases hc : a = azimuth ∧ sb < cfg.nSrcBeams ∧ rb < cfg.nRcvBeams ∧
        f < cfg.nFreq ∧ t < cfg.nTimes
    · rw [if_pos hc]
      by_cases hflag : compute_intensity cfg phys
          (weighted_scatter scatter src_beam rcv_beam sb rb) src_verb rcv_verb = true
      · rw [if_pos hflag]
        have hz : compute_time_series cfg phys
            (weighted_scatter scatter src_beam rcv_beam sb rb)
            src_verb rcv_verb f t = 0 := by
          unfold compute_time_series
          by_cases hs : significant cfg phys
              (weighted_scatter scatter src_beam rcv_beam sb rb)
              src_verb rcv_verb f = true
          · rw [if_pos hs]
            rw [if_neg (not_le.mpr (hfar sb rb f t hc.2.2.2.2))]
          · rw [if_neg hs]
        rw [hz, add_zero]
      · rw [if_neg hflag]
    · rw [if_neg hc]
  · intro sb rb f hf he
    unfold compute_intensity
    rw [List.any_eq_true]
    exact ⟨f, List.mem_range.mpr hf, decide_eq_true he⟩

/-- Witness for claim C5 (amended): a contribution centered 100 s past the
0..1 s axis, far beyond the five-standard-deviation window, leaves the
tensor cell at zero while the call still reports success. -/
theorem out_of_range_silent_drop_witness :
    applyContribution cfgEx physEx zeroTensor 0 [1] beamEx beamEx verbFar verbFar
        0 0 0 0 1 = zeroTensor 0 0 0 0 1
    ∧ compute_intensity cfgEx physEx (weighted_scatter [1] beamEx beamEx 0 0)
        verbFar verbFar = true :=
  ⟨(out_of_range_silent_drop cfgEx physEx zeroTensor 0 [1] beamEx beamEx
      verbFar verbFar _ rfl
      (by
        intro sb rb f t ht
        have ht2 : t < 2 := ht
        interval_cases t <;>
          norm_num [travel_time, physEx, cfgEx, verbFar, verbEx])).1 0 0 0 0 1,
   (out_of_range_silent_drop cfgEx physEx zeroTensor 0 [1] beamEx beamEx
      verbFar verbFar _ rfl
      (by
        intro sb rb f t ht
        have ht2 : t < 2 := ht
        interval_cases t <;>
          norm_num [travel_time, physEx, cfgEx, verbFar, verbEx])).2 0 0 0
     (by decide)
     (by norm_num [weighted_scatter, physEx, cfgEx, beamEx])⟩

/-- Claim C6: a call of add_contribution with an out-of-range azimuth, a
beam-gain matrix whose shape is not one row per configured frequency and
one column per configured beam, or a scattering vector whose length differs
from the frequency axis fails fast: it reports the error condition and
produces no updated tensor at all. -/
theorem add_contribution_fails_fast (cfg : EnvConfig) (phys : PairwisePhysics)
    (T : Tensor) (azimuth : ℕ) (scatter : List ℚ) (src_beam rcv_beam : BeamMat)
    (src_verb rcv_verb : Eigenverb)
    (h : ¬ azimuth < cfg.nAz ∨ scatter.length ≠ cfg.nFreq ∨
      src_beam.rows ≠ cfg.nFreq ∨ src_beam.cols ≠ cfg.nSrcBeams ∨
      rcv_beam.rows ≠ cfg.nFreq ∨ rcv_beam.cols ≠ cfg.nRcvBeams) :
    add_contribution cfg phys T azimuth scatter src_beam rcv_beam
      src_verb rcv_verb = none := by
  have hv : validArgs cfg azimuth scatter src_beam rcv_beam = false := by
    unfold validArgs
    rcases h with h | h | h | h | h | h <;> simp [h]
  simp [add_contribution, hv]

/-- Witness for claim C6: an azimuth index of 5 against a single-azimuth
configuration is rejected outright. -/
theorem add_contribution_fails_fast_witness :
    add_contribution cfgEx physEx zeroTensor 5 [1] beamEx beamEx verbEx verbEx
      = none :=
  add_contribution_fails_fast cfgEx physEx zeroTensor 5 [1] beamEx beamEx
    verbEx verbEx (Or.inl (by decide))

/-- Concrete bistatic sensor pair fixture: distinct source and receiver
objects and empty collections. -/
def pairEx : sensor_pair where
  source := { ident := 0 }
  receiver := { ident := 1 }
  eigenrays := none
  src_eigenverbs := none
  rcv_eigenverbs := none
  envelopes := none

/-- A sensor object that is neither the source nor the receiver of
`pairEx`. -/
def straySensor : sensor_model where
  ident := 7

/-- Claim C8: multistatic() returns true exactly when the stored source
reference and the stored receiver reference are different objects, hence
false in the monostatic case, and the const call mutates nothing. -/
theorem multistatic_spec (p : sensor_pair) :
    ((multistatic p).1 = true ↔ p.source ≠ p.receiver)
    ∧ (multistatic p).2 = p := by
  constructor
  · unfold multistatic
    simp
  · rfl

/-- Witness for claim C8: the fixture pair with distinct source and
receiver is reported multistatic and is left unchanged. -/
theorem multistatic_spec_witness :
    (multistatic pairEx).1 = true ∧ (multistatic pairEx).2 = pairEx :=
  ⟨(multistatic_spec pairEx).1.mpr (by decide), (multistatic_spec pairEx).2⟩

/-- Claim C9: sensor_complement returns NULL for a NULL argument, the
stored receiver when the argument equals the stored source, and the stored
source for every other non-NULL argument — including a sensor that belongs
to neither side of the pair, which is answered with the source rather than
rejected. -/
theorem sensor_complement_spec (p : sensor_pair) :
    sensor_complement p none = none
    ∧ (∀ q, q = p.source → sensor_complement p (some q) = some p.receiver)
    ∧ ∀ q, q ≠ p.source → sensor_complement p (some q) = some p.source := by
  refine ⟨rfl, ?_, ?_⟩
  · intro q hq
    simp [sensor_complement, hq]
  · intro q hq
    simp [sensor_complement, hq]

/-- Witness for claim C9 on the fixture pair: NULL maps to NULL, the source
maps to the receiver, and a stray sensor belonging to neither side maps to
the source. -/
theorem sensor_complement_spec_witness :
    sensor_complement pairEx none = none
    ∧ sensor_complement pairEx (some pairEx.source) = some pairEx.receiver
    ∧ sensor_complement pairEx (some straySensor) = some pairEx.source :=
  ⟨(sensor_complement_spec pairEx).1,
   (sensor_complement_spec pairEx).2.1 pairEx.source rfl,
   (sensor_complement_spec pairEx).2.2 straySensor (by decide)⟩

/-- Claim C10: for every input sensor pointer, NULL or not,
update_eigenverbs leaves the source and receiver eigenverb collections and
every other field of the sensor pair unchanged; the notification has no
observable effect on the pair's state. -/
theorem update_eigenverbs_frame (p : sensor_pair) (sensor : Option sensor_model) :
    (update_eigenverbs p sensor).src_eigenverbs = p.src_eigenverbs
    ∧ (update_eigenverbs p sensor).rcv_eigenverbs = p.rcv_eigenverbs
    ∧ update_eigenverbs p sensor = p := by
  cases sensor <;> exact ⟨rfl, rfl, rfl⟩

/-- Witness for claim C10: the notification with a non-NULL stray sensor
leaves the fixture pair exactly as it was. -/
theorem update_eigenverbs_frame_witness :
    update_eigenverbs pairEx (some straySensor) = pairEx :=
  (update_eigenverbs_frame pairEx (some straySensor)).2.2
